import Mathlib

/-!
Verification of `init_script.py`, a deployment-time initialization script that
stages a model file and a label file into `/output/deepstream_models/<version>/`.

Shallow embedding conventions:
* Python exceptions are `PyError`; a function that can raise returns `Except PyError α`.
* `ScriptError(msg)` is `PyError.scriptError msg`; built-in exceptions (TypeError,
  KeyError, ValueError/JSONDecodeError, OSError) get their own constructors.
* File contents are byte lists (`List Nat`, each byte `< 256`).
* The filesystem and the log of network calls made by subprocess `curl`
  invocations are threaded explicitly through a state `St`.
* The outside world (config file contents, environment variables, the artifact
  store, `nvidia-smi` output) is passed in as explicit inputs.
* `hashlib.md5` is embedded as a full executable MD5 (RFC 1321) over byte lists;
  the incremental `update` loop over 4096-byte reads is modelled by chunking the
  content and concatenating the fed chunks.
-/

/-- Python exceptions as observed by this script.  `scriptError` is the
script's own `ScriptError`; the rest are the built-in exceptions that can
escape to the top-level generic handler. -/
inductive PyError where
  | scriptError : String → PyError
  | typeError : String → PyError
  | keyError : String → PyError
  | valueError : String → PyError
  | osError : String → PyError
deriving DecidableEq, Repr

/-- JSON values, for the docker-registry credential blob parsed by
`json.loads` in `get_auth_credentials`. -/
inductive Json where
  | null : Json
  | bool : Bool → Json
  | num : Int → Json
  | str : String → Json
  | arr : List Json → Json
  | obj : List (String × Json) → Json

/-- Python truthiness test `not x` for a JSON value (`not username`,
`not password` in `get_auth_credentials`). -/
def Json.isFalsy : Json → Bool
  | .null => true
  | .bool b => !b
  | .num n => n == 0
  | .str s => s.isEmpty
  | .arr l => l.isEmpty
  | .obj l => l.isEmpty

/-! ### MD5 (RFC 1321), executable over byte lists -/

/-- 2^32, the word modulus of MD5. -/
def M32 : Nat := 4294967296

/-- Rotate a 32-bit word (given as a `Nat < 2^32`) left by `s` bits. -/
def rotl32 (x s : Nat) : Nat := ((x <<< s) % M32) ||| (x >>> (32 - s))

/-- The 64 MD5 sine-derived constants `K[i] = floor(2^32 * |sin(i+1)|)`. -/
def md5K : List Nat :=
  [0xd76aa478, 0xe8c7b756, 0x242070db, 0xc1bdceee,
   0xf57c0faf, 0x4787c62a, 0xa8304613, 0xfd469501,
   0x698098d8, 0x8b44f7af, 0xffff5bb1, 0x895cd7be,
   0x6b901122, 0xfd987193, 0xa679438e, 0x49b40821,
   0xf61e2562, 0xc040b340, 0x265e5a51, 0xe9b6c7aa,
   0xd62f105d, 0x02441453, 0xd8a1e681, 0xe7d3fbc8,
   0x21e1cde6, 0xc33707d6, 0xf4d50d87, 0x455a14ed,
   0xa9e3e905, 0xfcefa3f8, 0x676f02d9, 0x8d2a4c8a,
   0xfffa3942, 0x8771f681, 0x6d9d6122, 0xfde5380c,
   0xa4beea44, 0x4bdecfa9, 0xf6bb4b60, 0xbebfbc70,
   0x289b7ec6, 0xeaa127fa, 0xd4ef3085, 0x04881d05,
   0xd9d4d039, 0xe6db99e5, 0x1fa27cf8, 0xc4ac5665,
   0xf4292244, 0x432aff97, 0xab9423a7, 0xfc93a039,
   0x655b59c3, 0x8f0ccc92, 0xffeff47d, 0x85845dd1,
   0x6fa87e4f, 0xfe2ce6e0, 0xa3014314, 0x4e0811a1,
   0xf7537e82, 0xbd3af235, 0x2ad7d2bb, 0xeb86d391]

/-- The 64 MD5 per-round left-rotation amounts. -/
def md5S : List Nat :=
  [7, 12, 17, 22, 7, 12, 17, 22, 7, 12, 17, 22, 7, 12, 17, 22,
   5, 9, 14, 20, 5, 9, 14, 20, 5, 9, 14, 20, 5, 9, 14, 20,
   4, 11, 16, 23, 4, 11, 16, 23, 4, 11, 16, 23, 4, 11, 16, 23,
   6, 10, 15, 21, 6, 10, 15, 21, 6, 10, 15, 21, 6, 10, 15, 21]

/-- Little-endian decoding of a byte list into 32-bit words. -/
def toWords : List Nat → List Nat
  | b0 :: b1 :: b2 :: b3 :: rest =>
      (b0 + 256 * b1 + 65536 * b2 + 16777216 * b3) :: toWords rest
  | _ => []

/-- The MD5 round function: mixing function for round `i` on words `b c d`. -/
def md5F (i b c d : Nat) : Nat :=
  if i < 16 then (b &&& c) ||| ((b ^^^ 0xffffffff) &&& d)
  else if i < 32 then (d &&& b) ||| ((d ^^^ 0xffffffff) &&& c)
  else if i < 48 then b ^^^ c ^^^ d
  else c ^^^ (b ||| (d ^^^ 0xffffffff))

/-- The MD5 message-word index schedule for round `i`. -/
def md5G (i : Nat) : Nat :=
  if i < 16 then i
  else if i < 32 then (5 * i + 1) % 16
  else if i < 48 then (3 * i + 5) % 16
  else (7 * i) % 16

/-- One MD5 round on state `(a, b, c, d)` with message words `w`. -/
def md5Round (w : List Nat) (st : Nat × Nat × Nat × Nat) (i : Nat) :
    Nat × Nat × Nat × Nat :=
  match st with
  | (a, b, c, d) =>
    let f := (md5F i b c d + a + md5K.getD i 0 + w.getD (md5G i) 0) % M32
    (d, (b + rotl32 f (md5S.getD i 0)) % M32, b, c)

/-- Process one 64-byte block, folding the 64 rounds and adding the result
back into the chaining state. -/
def md5Block (st : Nat × Nat × Nat × Nat) (block : List Nat) :
    Nat × Nat × Nat × Nat :=
  let w := toWords block
  match st, (List.range 64).foldl (md5Round w) st with
  | (a0, b0, c0, d0), (a, b, c, d) =>
    ((a0 + a) % M32, (b0 + b) % M32, (c0 + c) % M32, (d0 + d) % M32)

/-- Split a byte list into chunks of `n` bytes, with an explicit structural
fuel so that the definition computes by kernel reduction. -/
def chunksFuel (n : Nat) : Nat → List Nat → List (List Nat)
  | 0, _ => []
  | _, [] => []
  | fuel + 1, x :: xs => ((x :: xs).take n) :: chunksFuel n fuel ((x :: xs).drop n)

/-- Split a byte list into chunks of `n` bytes (the last chunk may be short). -/
def chunksOfN (n : Nat) (l : List Nat) : List (List Nat) := chunksFuel n l.length l

/-- 64-bit little-endian encoding of a length-in-bits value. -/
def le8 (n : Nat) : List Nat :=
  [n % 256, n / 256 % 256, n / 65536 % 256, n / 16777216 % 256,
   n / 4294967296 % 256, n / 1099511627776 % 256,
   n / 281474976710656 % 256, n / 72057594037927936 % 256]

/-- MD5 padding: append `0x80`, zero bytes to reach 56 mod 64, then the
original bit length as a 64-bit little-endian quantity. -/
def md5pad (msg : List Nat) : List Nat :=
  let len := msg.length
  let zeros := (119 - len % 64) % 64
  msg ++ 128 :: List.replicate zeros 0 ++ le8 ((len * 8) % 18446744073709551616)

/-- Lowercase hexadecimal digit for `n < 16`. -/
def hexDigit (n : Nat) : Char := if n < 10 then Char.ofNat (48 + n) else Char.ofNat (87 + n)

/-- Two lowercase hex characters for a byte. -/
def byteHexChars (b : Nat) : List Char := [hexDigit (b / 16 % 16), hexDigit (b % 16)]

/-- Little-endian byte serialization of a 32-bit word. -/
def wordLEBytes (w : Nat) : List Nat :=
  [w % 256, w / 256 % 256, w / 65536 % 256, w / 16777216 % 256]

/-- `hashlib.md5(msg).hexdigest()`: the lowercase hex MD5 digest of a byte
list. -/
def md5hex (msg : List Nat) : String :=
  match (chunksOfN 64 (md5pad msg)).foldl md5Block
      (0x67452301, 0xefcdab89, 0x98badcfe, 0x10325476) with
  | (a, b, c, d) =>
    String.mk (((wordLEBytes a ++ wordLEBytes b ++ wordLEBytes c ++ wordLEBytes d).map
      byteHexChars).flatten)

/-! ### String helpers -/

/-- Python's substring test `needle in hay` on strings, as a scan over
character lists. -/
def substrIn (needle : List Char) : List Char → Bool
  | [] => needle.isEmpty
  | c :: rest => needle.isPrefixOf (c :: rest) || substrIn needle rest

/-- `os.path.basename`: the text after the last `/`. -/
def basename (s : String) : String :=
  String.mk ((s.data.reverse.takeWhile (fun c => c != '/')).reverse)

/-- The fixed-width lookbehind text of the version-extraction regex
`(?<=/output/deepstream_models/).*(?=/)`. -/
def markerString : String := "/output/deepstream_models/"

/-- The lookbehind text as a character list. -/
def markerList : List Char := markerString.data

/-- The greedy `.*(?=/)` step of the version-extraction regex: on the
newline-free segment after the marker, match up to (excluding) the last `/`;
`none` when the segment has no `/`. -/
def lastSlashSplit (seg : List Char) : Option (List Char) :=
  match (seg.reverse).dropWhile (fun c => c != '/') with
  | [] => none
  | _ :: t => some t.reverse

/-- `re.search(r'(?<=/output/deepstream_models/).*(?=/)', s)` over a character
list: scan start positions left to right; at the first position where the
lookbehind matches and a `/` is reachable on the same line, return the greedy
(longest) match of `.*` whose next character is `/`. -/
def extract_core : List Char → Option (List Char)
  | [] => none
  | c :: rest =>
    if markerList.isPrefixOf (c :: rest) then
      match lastSlashSplit (((c :: rest).drop markerList.length).takeWhile
          (fun ch => ch != '\n')) with
      | some v => some v
      | none => extract_core rest
    else extract_core rest

/-- `re.search(r'(?<=: ).*', s)`: the rest of the line after the first
occurrence of `": "`, or `none` when there is no such occurrence. -/
def afterColonSpace : List Char → Option (List Char)
  | [] => none
  | ':' :: ' ' :: rest => some (rest.takeWhile (fun c => c != '\n'))
  | _ :: rest => afterColonSpace rest

/-- The whitespace characters stripped by Python's `str.strip()`. -/
def isSpaceChar (c : Char) : Bool :=
  c == ' ' || c == '\t' || c == '\n' || c == '\r' || c == '\x0b' || c == '\x0c'

/-- Python's `str.strip()`: remove leading and trailing whitespace. -/
def pyStrip (s : String) : String :=
  String.mk (((s.data.dropWhile isSpaceChar).reverse.dropWhile isSpaceChar).reverse)

/-- ASCII uppercasing, used to state the case-sensitivity of the digest
comparison. -/
def asciiUpper (s : String) : String :=
  String.mk (s.data.map (fun c =>
    if 97 ≤ c.toNat ∧ c.toNat ≤ 122 then Char.ofNat (c.toNat - 32) else c))

/-! ### Filesystem and network-call trace -/

/-- One subprocess `curl` invocation: a file download
(`run_curl_command`) or a storage-API checksum query (`get_jfrog_checksum`). -/
inductive NetEvent where
  | download : String → NetEvent
  | checksum : String → NetEvent
deriving DecidableEq, Repr

/-- Process-visible world state: files on disk (path, content), the trace of
network calls performed so far, and the directories created. -/
structure St where
  fs : List (String × List Nat)
  events : List NetEvent
  dirs : List String
deriving DecidableEq, Repr

/-- `os.path.isfile`. -/
def St.isfile (st : St) (p : String) : Bool := (st.fs.lookup p).isSome

/-- Remove a path from the file map. -/
def fsRemove (fs : List (String × List Nat)) (k : String) : List (String × List Nat) :=
  fs.filter (fun kv => kv.1 != k)

/-- Create or overwrite a file. -/
def fsSet (fs : List (String × List Nat)) (k : String) (c : List Nat) :
    List (String × List Nat) :=
  (k, c) :: fsRemove fs k

/-- `os.rename a b` on the state (only ever called with `a` present). -/
def fsRenameSt (st : St) (a b : String) : St :=
  match st.fs.lookup a with
  | some c => { st with fs := fsSet (fsRemove st.fs a) b c }
  | none => st

/-- `os.path.exists`: a file or a created directory. -/
def pathExists (st : St) (p : String) : Bool :=
  st.isfile p || st.dirs.contains p

/-! ### The artifact-store URLs built by the script -/

/-- Label-file download URL (line 78). -/
def labelUrl (model_version : String) : String :=
  "https://colesgroup.jfrog.io/artifactory/ieb-prod-generic-virtual/deepstream-models/"
    ++ model_version ++ "/labels.txt"

/-- A2-variant model download URL (line 89). -/
def modelUrlA2 (model_version : String) : String :=
  "https://colesgroup.jfrog.io/artifactory/ieb-prod-generic-virtual/deepstream-models/"
    ++ model_version ++ "/A2_model.onnx_b1_gpu0_fp16.engine"

/-- A16-variant model download URL (line 93). -/
def modelUrlA16 (model_version : String) : String :=
  "https://colesgroup.jfrog.io/artifactory/ieb-prod-generic-virtual/deepstream-models/"
    ++ model_version ++ "/A16_model.onnx_b1_gpu0_fp16.engine"

/-- Storage-metadata (checksum) URL (line 101). -/
def storageUrl (model_version filename : String) : String :=
  "https://colesgroup.jfrog.io/artifactory/api/storage/ieb-prod-generic-virtual/deepstream-models/"
    ++ model_version ++ "/" ++ filename

/-! ### The script's functions -/

/-- `extract_model_version` (lines 21-26): regex search, `ScriptError` when
there is no match. -/
def extract_model_version (model_dir_configmap : String) : Except PyError String :=
  match extract_core model_dir_configmap.data with
  | some v => .ok (String.mk v)
  | none => .error (.scriptError "Error extracting model version from path.")

/-- Python subscript `j[k]`: `KeyError` on a missing key of a dict,
`TypeError` when the value is not a dict (string indices, etc.). -/
def jsonIndex (j : Json) (k : String) : Except PyError Json :=
  match j with
  | .obj fields =>
    match fields.lookup k with
    | some v => .ok v
    | none => .error (.keyError k)
  | _ => .error (.typeError "value is not subscriptable by a string key")

/-- The chain `auths["auths"][jfrog_env][field]` from lines 30-31. -/
def digAuth (j : Json) (jfrog_env field : String) : Except PyError Json :=
  match jsonIndex j "auths" with
  | .error e => .error e
  | .ok a =>
    match jsonIndex a jfrog_env with
    | .error e => .error e
    | .ok b => jsonIndex b field

/-- `get_auth_credentials` (lines 28-34) after `json.loads`: look up
username and password, raise `ScriptError` when either is falsy. -/
def get_auth_credentials_core (auths : Json) (jfrog_env : String) :
    Except PyError (Json × Json) :=
  match digAuth auths jfrog_env "username" with
  | .error e => .error e
  | .ok username =>
    match digAuth auths jfrog_env "password" with
    | .error e => .error e
    | .ok password =>
      if username.isFalsy || password.isFalsy then
        .error (.scriptError "Failed to retrieve username or password")
      else .ok (username, password)

/-- `get_auth_credentials` (lines 28-34): `json.loads` (an abstract parser
`parse`; `none` models a `json.JSONDecodeError`, a `ValueError`) followed by
the credential lookup. -/
def get_auth_credentials (parse : String → Option Json) (dockerconfigjson jfrog_env : String) :
    Except PyError (Json × Json) :=
  match parse dockerconfigjson with
  | none => .error (.valueError "Expecting value")
  | some auths => get_auth_credentials_core auths jfrog_env

/-- `get_gpu_model` (lines 36-42): `gpu_out` is the outcome of
`subprocess.check_output(['nvidia-smi', '-L'])` (`.error` = non-zero exit,
raising `CalledProcessError`, re-raised as `ScriptError`); on success the
stripped stdout is searched for `(?<=: ).*`, giving `None` when absent. -/
def get_gpu_model (gpu_out : Except Unit String) : Except PyError (Option String) :=
  match gpu_out with
  | .error _ => .error (.scriptError "Error retrieving GPU model: nvidia-smi returned non-zero exit status")
  | .ok out => .ok ((afterColonSpace (pyStrip out).data).map String.mk)

/-- `run_curl_command` (lines 44-53): `curl -O` writes `basename url` into
the working directory, then `os.rename` moves it to `local_path`; `net` is
the artifact store (`none` = curl non-zero exit after its retries). Every
invocation is recorded as a `download` event. -/
def run_curl_command (net : String → Option (List Nat)) (url : String)
    (username password : Json) (local_path : String) (st : St) :
    St × Except PyError Unit :=
  match net url with
  | none =>
    ({ st with events := st.events ++ [.download url] },
     .error (.scriptError ("Error downloading file: " ++ url)))
  | some content =>
    let st1 := { st with
      events := st.events ++ [.download url],
      fs := fsSet st.fs (basename url) content }
    (fsRenameSt st1 (basename url) local_path, .ok ())

/-- `get_jfrog_checksum` (lines 55-63): a `curl` GET against the storage
API; `checksums` abstracts the JSON response's `checksums.md5` field
(`none` = curl failure or malformed response, wrapped as `ScriptError`).
Every invocation is recorded as a `checksum` event. -/
def get_jfrog_checksum (checksums : String → Option String) (url : String)
    (username password : Json) (st : St) : St × Except PyError String :=
  let st1 : St := { st with events := st.events ++ [.checksum url] }
  match checksums url with
  | some md5 => (st1, .ok md5)
  | none => (st1, .error (.scriptError ("Error fetching JFrog checksum: " ++ url)))

/-- `verify_md5` (lines 65-73) on explicit file content: read the file in
4096-byte chunks, feed each chunk to the incremental MD5 (equivalently, hash
the concatenation of the chunks), compare the lowercase hex digest with
`expected_md5` by string equality, and raise `ScriptError` on mismatch. -/
def verify_md5_core (local_file_path : String) (content : List Nat)
    (expected_md5 : String) : Except PyError Unit :=
  let fed := (chunksOfN 4096 content).foldl (fun acc chunk => acc ++ chunk) []
  let md5_matches := md5hex fed == expected_md5
  if md5_matches then .ok ()
  else .error (.scriptError ("MD5 check failed for " ++ local_file_path ++ "."))

/-- `verify_md5` reading from the filesystem; a missing file makes `open`
raise `FileNotFoundError` (an `OSError`). -/
def verify_md5 (st : St) (local_file_path : String) (expected_md5 : String) :
    Except PyError Unit :=
  match st.fs.lookup local_file_path with
  | some content => verify_md5_core local_file_path content expected_md5
  | none => .error (.osError local_file_path)

/-- `download_and_check_label_file` (lines 75-81): when the label file is
absent, download it; otherwise do nothing. -/
def download_and_check_label_file (net : String → Option (List Nat))
    (label_file model_version : String) (username password : Json) (st : St) :
    St × Except PyError Unit :=
  if !(st.isfile label_file) then
    run_curl_command net (labelUrl model_version) username password label_file st
  else (st, .ok ())

/-- The GPU-variant selection of `download_and_check_model_file`
(lines 88-97): Python's `'A2' in gpu_model` / `'A16' in gpu_model` branches;
on `gpu_model = None` the very first membership test raises `TypeError`. -/
def select_model_url (model_version : String) (gpu_model : Option String) :
    Except PyError (String × String) :=
  match gpu_model with
  | none => .error (.typeError "argument of type NoneType is not iterable")
  | some g =>
    if substrIn "A2".data g.data then
      .ok (modelUrlA2 model_version, "A2_model.onnx_b1_gpu0_fp16.engine")
    else if substrIn "A16".data g.data then
      .ok (modelUrlA16 model_version, "A16_model.onnx_b1_gpu0_fp16.engine")
    else .error (.scriptError ("Unsupported GPU model " ++ g))

/-- `download_and_check_model_file` (lines 83-107): when the model file is
absent, select the variant by GPU model, download it, fetch the expected MD5
from the storage API, verify, and only then rename into `model_file`. -/
def download_and_check_model_file (net : String → Option (List Nat))
    (checksums : String → Option String) (model_file model_version : String)
    (gpu_model : Option String) (username password : Json) (st : St) :
    St × Except PyError Unit :=
  if !(st.isfile model_file) then
    match select_model_url model_version gpu_model with
    | .error e => (st, .error e)
    | .ok (model_url, local_path) =>
      match run_curl_command net model_url username password local_path st with
      | (st1, .error e) => (st1, .error e)
      | (st1, .ok _) =>
        let jfrog_url := storageUrl model_version (basename local_path)
        match get_jfrog_checksum checksums jfrog_url username password st1 with
        | (st2, .error e) => (st2, .error e)
        | (st2, .ok jfrog_checksum) =>
          match verify_md5 st2 local_path jfrog_checksum with
          | .error e => (st2, .error e)
          | .ok _ => (fsRenameSt st2 local_path model_file, .ok ())
  else (st, .ok ())

/-- `ensure_model_directory_exists` (lines 110-117). -/
def ensure_model_directory_exists (model_dir : String) (st : St) : St :=
  if !(pathExists st model_dir) then { st with dirs := st.dirs ++ [model_dir] }
  else st

/-- The outside world read by `main`: the config value at
`property.model-engine-file` (`none` = missing/malformed file or key), the
two environment variables, and the outcome of the `nvidia-smi` probe. -/
structure Env where
  config_model_engine_file : Option String
  dockerconfigjson : Option String
  jfrog_env : Option String
  gpu_out : Except Unit String

/-- The body of `main`'s `try` block (lines 121-151), threading the world
state and returning the raised exception, if any. -/
def mainCore (parse : String → Option Json) (net : String → Option (List Nat))
    (checksums : String → Option String) (env : Env) (st : St) :
    St × Except PyError Unit :=
  match env.config_model_engine_file with
  | none => (st, .error (.osError "cannot read /config/config-infer-primary-bot.yaml"))
  | some model_dir_configmap =>
    match extract_model_version model_dir_configmap with
    | .error e => (st, .error e)
    | .ok model_version =>
      match env.dockerconfigjson, env.jfrog_env with
      | some dockerconfigjson, some jfrog_env =>
        if dockerconfigjson.isEmpty || jfrog_env.isEmpty then
          (st, .error (.scriptError "Docker config or JFrog environment variable not set."))
        else
          match get_auth_credentials parse dockerconfigjson jfrog_env with
          | .error e => (st, .error e)
          | .ok (username, password) =>
            let model_dir := "/output/deepstream_models/" ++ model_version
            let st1 := ensure_model_directory_exists model_dir st
            let label_file := "/output/deepstream_models/" ++ model_version ++ "/labels.txt"
            match download_and_check_label_file net label_file model_version username password st1 with
            | (st2, .error e) => (st2, .error e)
            | (st2, .ok _) =>
              match get_gpu_model env.gpu_out with
              | .error e => (st2, .error e)
              | .ok gpu_model =>
                let model_file := "/output/deepstream_models/" ++ model_version
                  ++ "/model.onnx_b1_gpu0_fp16.engine"
                download_and_check_model_file net checksums model_file model_version
                  gpu_model username password st2
      | _, _ =>
        (st, .error (.scriptError "Docker config or JFrog environment variable not set."))

/-- `main` with its top-level handler (lines 153-158): exit code 0 on
success, 1 on any raised error; the third component is the logged error.
(Named `script_main` because Lean reserves the top-level name `main`.) -/
def script_main (parse : String → Option Json) (net : String → Option (List Nat))
    (checksums : String → Option String) (env : Env) (st : St) :
    Nat × St × Option PyError :=
  match mainCore parse net checksums env st with
  | (st', .ok _) => (0, st', none)
  | (st', .error e) => (1, st', some e)

/-! ### Result classifiers and spec-side predicates -/

/-- Truth test for "the call raised some exception". -/
def exceptIsError {α : Type} (r : Except PyError α) : Bool :=
  match r with
  | .error _ => true
  | .ok _ => false

/-- Truth test for "the call raised the script's own `ScriptError`" (as
opposed to a built-in exception such as `TypeError`). -/
def isScriptErrorResult (r : Except PyError (String × String)) : Bool :=
  match r with
  | .error (.scriptError _) => true
  | _ => false

/-- Spec-side predicate (from the spec's words): the credential blob has
`auths[<env>].username` or `auths[<env>].password` empty or absent, or the
registry-name key is missing along the way. -/
def credentialDeficient (j : Json) (jfrog_env : String) : Bool :=
  match digAuth j jfrog_env "username", digAuth j jfrog_env "password" with
  | .ok u, .ok p => u.isFalsy || p.isFalsy
  | _, _ => true

/-! ### Concrete scenario used for the MD5-mismatch run (spec section 8's
failure scenario): version `v3.2`, registry env `prod`, credentials `u`/`p`,
GPU `NVIDIA A16-16Q`, label file already present, model file absent. -/

/-- JSON parser stub serving the one concrete credential blob. -/
def parseScenario : String → Option Json := fun s =>
  if s = "cfg" then
    some (Json.obj [("auths", Json.obj [("prod",
      Json.obj [("username", Json.str "u"), ("password", Json.str "p")])])])
  else none

/-- Environment for the scenario. -/
def envScenario : Env :=
  { config_model_engine_file := some "/output/deepstream_models/v3.2/model.onnx",
    dockerconfigjson := some "cfg",
    jfrog_env := some "prod",
    gpu_out := .ok "GPU 0: NVIDIA A16-16Q (UUID: GPU-x)" }

/-- Initial disk state for the scenario: the label file already staged, the
model file absent. -/
def stScenario : St :=
  { fs := [("/output/deepstream_models/v3.2/labels.txt", [])],
    events := [],
    dirs := ["/output/deepstream_models/v3.2"] }

/-- Artifact store serving `content` for the A16 model URL. -/
def netScenario (content : List Nat) : String → Option (List Nat) := fun u =>
  if u = modelUrlA16 "v3.2" then some content else none

/-- Storage metadata API reporting `e` as the expected MD5. -/
def cksScenario (e : String) : String → Option String := fun u =>
  if u = storageUrl "v3.2" "A16_model.onnx_b1_gpu0_fp16.engine" then some e else none

/-- Final state of the mismatch run: the downloaded bytes still sit under the
download name `A16_model.onnx_b1_gpu0_fp16.engine`, the canonical model path
was never created, and exactly one download plus one checksum query ran. -/
def stMismatch (content : List Nat) : St :=
  { fs := [("A16_model.onnx_b1_gpu0_fp16.engine", content),
           ("/output/deepstream_models/v3.2/labels.txt", [])],
    events := [NetEvent.download (modelUrlA16 "v3.2"),
               NetEvent.checksum (storageUrl "v3.2" "A16_model.onnx_b1_gpu0_fp16.engine")],
    dirs := ["/output/deepstream_models/v3.2"] }

/-! ### Helper lemmas: chunked feeding equals hashing the whole content -/

theorem foldl_append_eq_flatten (cs : List (List Nat)) (acc : List Nat) :
    cs.foldl (fun acc chunk => acc ++ chunk) acc = acc ++ cs.flatten := by
  induction cs generalizing acc with
  | nil => simp
  | cons h t ih => simp [ih, List.append_assoc]

theorem chunksFuel_flatten (n : Nat) (hn : 0 < n) :
    ∀ (fuel : Nat) (l : List Nat), l.length ≤ fuel → (chunksFuel n fuel l).flatten = l := by
  intro fuel
  induction fuel with
  | zero =>
    intro l hl
    have hnil : l = [] := List.length_eq_zero.mp (Nat.le_zero.mp hl)
    subst hnil
    simp [chunksFuel]
  | succ f ih =>
    intro l hl
    cases l with
    | nil => simp [chunksFuel]
    | cons x xs =>
      have hlen : ((x :: xs).drop n).length ≤ f := by
        rw [List.length_drop]
        have h1 : (x :: xs).length - n ≤ (x :: xs).length - 1 :=
          Nat.sub_le_sub_left hn _
        have h2 : (x :: xs).length - 1 ≤ f := by
          simp only [List.length_cons, Nat.add_sub_cancel]
          exact Nat.succ_le_succ_iff.mp hl
        exact le_trans h1 h2
      simp [chunksFuel, ih _ hlen]

theorem fed_eq (c : List Nat) :
    (chunksOfN 4096 c).foldl (fun acc chunk => acc ++ chunk) [] = c := by
  rw [foldl_append_eq_flatten, List.nil_append, chunksOfN,
    chunksFuel_flatten 4096 (by norm_num) c.length c le_rfl]

theorem verify_core_match (p : String) (c : List Nat) :
    verify_md5_core p c (md5hex c) = .ok () := by
  simp [verify_md5_core, fed_eq]

theorem verify_core_mismatch (p : String) (c : List Nat) (e : String) (h : e ≠ md5hex c) :
    verify_md5_core p c e =
      .error (.scriptError ("MD5 check failed for " ++ p ++ ".")) := by
  have hb : (md5hex c == e) = false := by
    cases hb : md5hex c == e with
    | false => rfl
    | true => exact absurd (eq_of_beq hb).symm h
  simp [verify_md5_core, fed_eq, hb]

theorem lookup_fsSet_self (fs : List (String × List Nat)) (k : String) (c : List Nat) :
    (fsSet fs k c).lookup k = some c := by
  simp [fsSet, List.lookup]

/-! ### Helper lemmas: the version-extraction regex -/

theorem isPrefixOf_append_self (A B : List Char) : A.isPrefixOf (A ++ B) = true := by
  simp [List.isPrefixOf_iff_prefix]

theorem dropWhile_head_not (p : Char → Bool) :
    ∀ (l : List Char) (x : Char) (t : List Char), l.dropWhile p = x :: t → p x = false := by
  intro l
  induction l with
  | nil => intro x t h; simp [List.dropWhile] at h
  | cons a l ih =>
    intro x t h
    rw [List.dropWhile_cons] at h
    by_cases hp : p a = true
    · rw [if_pos hp] at h
      exact ih x t h
    · rw [if_neg hp] at h
      cases h
      simpa using hp

theorem dropWhile_append_all (p : Char → Bool) (A B : List Char)
    (h : ∀ x ∈ A, p x = true) : (A ++ B).dropWhile p = B.dropWhile p := by
  induction A with
  | nil => rfl
  | cons a A ih =>
    rw [List.cons_append, List.dropWhile_cons, if_pos (h a (List.mem_cons_self a A))]
    exact ih (fun x hx => h x (List.mem_cons_of_mem a hx))

theorem takeWhile_append_all (p : Char → Bool) (A B : List Char)
    (h : ∀ x ∈ A, p x = true) : (A ++ B).takeWhile p = A ++ B.takeWhile p := by
  induction A with
  | nil => rfl
  | cons a A ih =>
    rw [List.cons_append, List.takeWhile_cons, if_pos (h a (List.mem_cons_self a A)),
      ih (fun x hx => h x (List.mem_cons_of_mem a hx)), List.cons_append]

theorem lastSlashSplit_concrete (v t : List Char) (ht : '/' ∉ t) :
    lastSlashSplit (v ++ '/' :: t) = some v := by
  unfold lastSlashSplit
  have hrev : (v ++ '/' :: t).reverse = t.reverse ++ '/' :: v.reverse := by
    simp [List.reverse_append]
  have hall : ∀ x ∈ t.reverse, (x != '/') = true := by
    intro x hx
    rw [List.mem_reverse] at hx
    exact bne_iff_ne.mpr (fun he => ht (he ▸ hx))
  rw [hrev, dropWhile_append_all _ _ _ hall, List.dropWhile_cons]
  simp

theorem lastSlashSplit_some (seg v : List Char) (h : lastSlashSplit seg = some v) :
    ∃ t, seg = v ++ '/' :: t := by
  unfold lastSlashSplit at h
  cases hd : (seg.reverse).dropWhile (fun c => c != '/') with
  | nil => rw [hd] at h; cases h
  | cons x t =>
    rw [hd] at h
    have hx : (x != '/') = false :=
      dropWhile_head_not (fun c => c != '/') seg.reverse x t hd
    have hx' : x = '/' := by simpa using hx
    have hv : t.reverse = v := by
      simpa using h
    refine ⟨(seg.reverse.takeWhile (fun c => c != '/')).reverse, ?_⟩
    have hsegrev : seg.reverse = seg.reverse.takeWhile (fun c => c != '/') ++ x :: t := by
      conv_lhs => rw [← List.takeWhile_append_dropWhile (p := fun c => c != '/')
        (l := seg.reverse)]
      rw [hd]
    subst hx'
    calc seg = seg.reverse.reverse := (List.reverse_reverse seg).symm
      _ = (seg.reverse.takeWhile (fun c => c != '/') ++ '/' :: t).reverse := by
            rw [← hsegrev]
      _ = v ++ '/' :: (seg.reverse.takeWhile (fun c => c != '/')).reverse := by
            rw [← hv]; simp [List.reverse_append]

theorem lastSlashSplit_none (seg : List Char) (h : lastSlashSplit seg = none) :
    '/' ∉ seg := by
  unfold lastSlashSplit at h
  cases hd : (seg.reverse).dropWhile (fun c => c != '/') with
  | cons x t => rw [hd] at h; cases h
  | nil =>
    intro hm
    have := List.dropWhile_eq_nil_iff.mp hd '/' (List.mem_reverse.mpr hm)
    simp at this

theorem extract_core_marker_some (X v : List Char)
    (h : lastSlashSplit (X.takeWhile (fun ch => ch != '\n')) = some v) :
    extract_core (markerList ++ X) = some v := by
  rw [show markerList ++ X = '/' :: ("output/deepstream_models/".data ++ X) from rfl]
  unfold extract_core
  have hpre : markerList.isPrefixOf ('/' :: ("output/deepstream_models/".data ++ X)) = true :=
    isPrefixOf_append_self markerList X
  rw [hpre, if_pos rfl]
  have hdrop : (('/' : Char) :: ("output/deepstream_models/".data ++ X)).drop
      markerList.length = X :=
    List.drop_left markerList X
  rw [hdrop, h]

theorem extract_core_sound :
    ∀ (s v : List Char), extract_core s = some v →
      '\n' ∉ v ∧ (markerList ++ v ++ ['/']) <:+: s := by
  intro s
  induction s with
  | nil => intro v h; simp [extract_core] at h
  | cons c rest ih =>
    intro v h
    unfold extract_core at h
    by_cases hpre : markerList.isPrefixOf (c :: rest) = true
    · rw [if_pos hpre] at h
      cases hsplit : lastSlashSplit (((c :: rest).drop markerList.length).takeWhile
          (fun ch => ch != '\n')) with
      | some v0 =>
        rw [hsplit] at h
        have hv : v0 = v := by simpa using h
        subst hv
        obtain ⟨t, hseg⟩ := lastSlashSplit_some _ _ hsplit
        constructor
        · intro hnv
          have hmem : '\n' ∈ ((c :: rest).drop markerList.length).takeWhile
              (fun ch => ch != '\n') := by
            rw [hseg]; exact List.mem_append_left _ hnv
          have := List.mem_takeWhile_imp hmem
          simp at this
        · obtain ⟨C, hC⟩ := List.isPrefixOf_iff_prefix.mp hpre
          have hdropC : (c :: rest).drop markerList.length = C := by
            rw [← hC]; exact List.drop_left _ _
          have hsegpre : (v0 ++ '/' :: t) <+: C := by
            rw [← hseg, ← hdropC]; exact List.takeWhile_prefix _
          obtain ⟨D, hD⟩ := hsegpre
          refine ⟨[], t ++ D, ?_⟩
          rw [← hC, ← hD]
          simp [List.append_assoc]
      | none =>
        rw [hsplit] at h
        simp only [] at h
        obtain ⟨hnl, hinf⟩ := ih v h
        exact ⟨hnl, List.infix_cons hinf⟩
    · rw [if_neg hpre] at h
      obtain ⟨hnl, hinf⟩ := ih v h
      exact ⟨hnl, List.infix_cons hinf⟩

theorem extract_core_complete :
    ∀ (s : List Char), extract_core s = none →
      ∀ v : List Char, '\n' ∉ v → ¬ (markerList ++ v ++ ['/']) <:+: s := by
  intro s
  induction s with
  | nil =>
    intro _ v _ hinf
    have := List.eq_nil_of_infix_nil hinf
    simp at this
  | cons c rest ih =>
    intro h v hnl hinf
    unfold extract_core at h
    rcases List.infix_cons_iff.mp hinf with hp | hinf'
    · obtain ⟨D, hD⟩ := hp
      have hassoc : (markerList ++ v ++ ['/']) ++ D = markerList ++ (v ++ ['/'] ++ D) := by
        simp [List.append_assoc]
      have hmpre : markerList.isPrefixOf (c :: rest) = true := by
        rw [← hD, hassoc]
        exact isPrefixOf_append_self _ _
      rw [if_pos hmpre] at h
      have hdropD : (c :: rest).drop markerList.length = v ++ ['/'] ++ D := by
        rw [← hD, hassoc]
        exact List.drop_left _ _
      have hall : ∀ x ∈ v ++ ['/'], (x != '\n') = true := by
        intro x hx
        rcases List.mem_append.mp hx with hx | hx
        · exact bne_iff_ne.mpr (fun he => hnl (he ▸ hx))
        · simp at hx; subst hx; decide
      have hseg : ((c :: rest).drop markerList.length).takeWhile (fun ch => ch != '\n')
          = (v ++ ['/']) ++ D.takeWhile (fun ch => ch != '\n') := by
        rw [hdropD]
        exact takeWhile_append_all _ _ _ hall
      cases hsplit : lastSlashSplit (((c :: rest).drop markerList.length).takeWhile
          (fun ch => ch != '\n')) with
      | some v0 => rw [hsplit] at h; simp at h
      | none =>
        have := lastSlashSplit_none _ (hseg ▸ hsplit)
        exact this (by simp)
    · by_cases hmpre : markerList.isPrefixOf (c :: rest) = true
      · rw [if_pos hmpre] at h
        cases hsplit : lastSlashSplit (((c :: rest).drop markerList.length).takeWhile
            (fun ch => ch != '\n')) with
        | some v0 => rw [hsplit] at h; simp at h
        | none =>
          rw [hsplit] at h
          simp only [] at h
          exact ih h v hnl hinf'
      · rw [if_neg hmpre] at h
        exact ih h v hnl hinf'

theorem extract_marker_general (V t : List Char) (hV : '\n' ∉ V) (ht : '/' ∉ t) :
    extract_core (markerList ++ (V ++ '/' :: t)) = some V := by
  apply extract_core_marker_some
  have h1 : V ++ '/' :: t = (V ++ ['/']) ++ t := by simp
  have hall : ∀ x ∈ V ++ ['/'], (x != '\n') = true := by
    intro x hx
    rcases List.mem_append.mp hx with hx | hx
    · exact bne_iff_ne.mpr (fun he => hV (he ▸ hx))
    · simp at hx; subst hx; decide
  rw [h1, takeWhile_append_all _ _ _ hall]
  have h2 : (V ++ ['/']) ++ t.takeWhile (fun ch => ch != '\n')
      = V ++ '/' :: t.takeWhile (fun ch => ch != '\n') := by simp
  rw [h2]
  apply lastSlashSplit_concrete
  intro hmem
  exact ht ((List.takeWhile_prefix _).sublist.subset hmem)

/-- C1 counterexample: on a path with two components after the version
segment, the greedy regex returns everything up to the **last** slash
(`"v1/a"`), not just the first segment `"v1"`, so the claim as stated is
false. -/
theorem extract_model_version_greedy_cex :
    extract_model_version "/output/deepstream_models/v1/a/b" = Except.ok "v1/a"
    ∧ ("v1/a" : String) ≠ "v1" := by
  exact ⟨rfl, by decide⟩

/-- C1 (amended): `extract_model_version` returns the text between
`/output/deepstream_models/` and the **last** `/` of the remaining line.
When exactly one further `/`-separated component follows the version
segment, this is exactly `<V>`; with two further components the result is
`<V>/<first component>`, i.e. more than the first segment. -/
theorem extract_model_version_segments :
    (∀ v t : List Char, '\n' ∉ v → '/' ∉ t →
        extract_model_version (String.mk (markerList ++ (v ++ '/' :: t)))
          = Except.ok (String.mk v))
  ∧ (∀ v u t : List Char, '\n' ∉ v → '\n' ∉ u → '/' ∉ t →
        extract_model_version (String.mk (markerList ++ (v ++ '/' :: (u ++ '/' :: t))))
          = Except.ok (String.mk (v ++ '/' :: u))) := by
  constructor
  · intro v t hv ht
    unfold extract_model_version
    have hdata : (String.mk (markerList ++ (v ++ '/' :: t))).data
        = markerList ++ (v ++ '/' :: t) := rfl
    rw [hdata, extract_marker_general v t hv ht]
  · intro v u t hv hu ht
    unfold extract_model_version
    have hdata : (String.mk (markerList ++ (v ++ '/' :: (u ++ '/' :: t)))).data
        = markerList ++ (v ++ '/' :: (u ++ '/' :: t)) := rfl
    rw [hdata]
    have hshape : v ++ '/' :: (u ++ '/' :: t) = (v ++ '/' :: u) ++ '/' :: t := by
      simp
    have hV : '\n' ∉ v ++ '/' :: u := by
      intro hmem
      rcases List.mem_append.mp hmem with hx | hx
      · exact hv hx
      · rcases List.mem_cons.mp hx with hx | hx
        · cases hx
        · exact hu hx
    rw [hshape, extract_marker_general (v ++ '/' :: u) t hV ht]

/-- C1 witness: the amended theorem evaluated on the spec's own example path
and on the two-component counexample shape. -/
theorem extract_model_version_segments_witness :
    extract_model_version (String.mk (markerList ++ ("v3.2".data ++ '/' :: "model.onnx".data)))
      = Except.ok (String.mk "v3.2".data)
    ∧ extract_model_version
        (String.mk (markerList ++ ("v1".data ++ '/' :: ("a".data ++ '/' :: "b".data))))
      = Except.ok (String.mk ("v1".data ++ '/' :: "a".data)) :=
  ⟨extract_model_version_segments.1 _ _ (by decide) (by decide),
   extract_model_version_segments.2 _ _ _ (by decide) (by decide) (by decide)⟩

/-- C7 counterexample: on `/output/deepstream_models//x` the function does
not raise; it returns the **empty** version string, violating both the
"raises when no `<VERSION>` segment occurs" half and the non-emptiness
invariant half of the claim. -/
theorem extract_model_version_empty_cex :
    extract_model_version "/output/deepstream_models//x" = Except.ok ""
    ∧ ("" : String).data = [] := ⟨rfl, rfl⟩

/-- C7 (amended): when `extract_model_version` raises, no (possibly empty,
newline-free) text `v` with `/output/deepstream_models/` ++ `v` ++ `/`
occurs in the input; when it returns `v`, such an occurrence exists — but
`v` may be empty, so the non-empty invariant does not hold. -/
theorem extract_model_version_soundness :
    (∀ s : String, extract_model_version s
          = Except.error (PyError.scriptError "Error extracting model version from path.") →
        ∀ v : List Char, '\n' ∉ v → ¬ (markerList ++ v ++ ['/']) <:+: s.data)
  ∧ (∀ (s v : String), extract_model_version s = Except.ok v →
        '\n' ∉ v.data ∧ (markerList ++ v.data ++ ['/']) <:+: s.data) := by
  constructor
  · intro s herr v hnl
    refine extract_core_complete s.data ?_ v hnl
    unfold extract_model_version at herr
    cases hc : extract_core s.data with
    | some v0 => rw [hc] at herr; simp at herr
    | none => rfl
  · intro s v hok
    unfold extract_model_version at hok
    cases hc : extract_core s.data with
    | none => rw [hc] at hok; simp at hok
    | some v0 =>
      rw [hc] at hok
      have hv : String.mk v0 = v := by simpa using hok
      subst hv
      have h := extract_core_sound s.data v0 hc
      simpa using h

/-- C7 witness: the soundness half evaluated at a successful concrete
extraction. -/
theorem extract_model_version_soundness_witness :
    '\n' ∉ ("v1" : String).data
    ∧ (markerList ++ ("v1" : String).data ++ ['/']) <:+:
        ("/output/deepstream_models/v1/x" : String).data :=
  extract_model_version_soundness.2 "/output/deepstream_models/v1/x" "v1" rfl

/-- C2 counterexample: on the absent (`None`) probe result, the selection
raises a `TypeError` from `'A2' in None`, not the "unsupported GPU model"
`ScriptError` the claim promises. -/
theorem gpu_selection_none_cex :
    select_model_url "v1" none
      = Except.error (PyError.typeError "argument of type NoneType is not iterable")
    ∧ isScriptErrorResult (select_model_url "v1" none) = false := ⟨rfl, rfl⟩

/-- C2 (amended): strings containing `"A2"` select the A2 artifact URL;
otherwise strings containing `"A16"` select the A16 URL; any other *string*
(including the empty string) raises the fatal "Unsupported GPU model"
`ScriptError`, with no fallback and no default; the absent/`None` probe
result instead raises a `TypeError` (still fatal — `main` exits 1 — but
logged as an unexpected error rather than as an unsupported GPU). -/
theorem gpu_selection_cases :
    (∀ (mv g : String), substrIn "A2".data g.data = true →
        select_model_url mv (some g)
          = Except.ok (modelUrlA2 mv, "A2_model.onnx_b1_gpu0_fp16.engine"))
  ∧ (∀ (mv g : String), substrIn "A2".data g.data = false →
        substrIn "A16".data g.data = true →
        select_model_url mv (some g)
          = Except.ok (modelUrlA16 mv, "A16_model.onnx_b1_gpu0_fp16.engine"))
  ∧ (∀ (mv g : String), substrIn "A2".data g.data = false →
        substrIn "A16".data g.data = false →
        select_model_url mv (some g)
          = Except.error (PyError.scriptError ("Unsupported GPU model " ++ g)))
  ∧ (∀ mv : String, select_model_url mv none
        = Except.error (PyError.typeError "argument of type NoneType is not iterable")) := by
  refine ⟨?_, ?_, ?_, fun mv => rfl⟩
  · intro mv g h
    simp [select_model_url, h]
  · intro mv g h1 h2
    simp [select_model_url, h1, h2]
  · intro mv g h1 h2
    simp [select_model_url, h1, h2]

/-- C2 witness: the amended selection rule evaluated on concrete GPU
strings. -/
theorem gpu_selection_cases_witness :
    select_model_url "v1" (some "NVIDIA A2")
      = Except.ok (modelUrlA2 "v1", "A2_model.onnx_b1_gpu0_fp16.engine")
    ∧ select_model_url "v1" (some "NVIDIA A16-16Q")
      = Except.ok (modelUrlA16 "v1", "A16_model.onnx_b1_gpu0_fp16.engine")
    ∧ select_model_url "v1" (some "A100")
      = Except.error (PyError.scriptError ("Unsupported GPU model " ++ "A100"))
    ∧ select_model_url "v1" (some "")
      = Except.error (PyError.scriptError ("Unsupported GPU model " ++ "")) :=
  ⟨gpu_selection_cases.1 "v1" "NVIDIA A2" (by decide),
   gpu_selection_cases.2.1 "v1" "NVIDIA A16-16Q" (by decide) (by decide),
   gpu_selection_cases.2.2.1 "v1" "A100" (by decide) (by decide),
   gpu_selection_cases.2.2.1 "v1" "" (by decide) (by decide)⟩

/-- C10: the `'A2' in gpu_model` branch is tested before the
`'A16' in gpu_model` branch, so a GPU string containing both substrings
selects the A2 variant URL and local filename. -/
theorem gpu_selection_a2_priority :
    ∀ (mv g : String), substrIn "A2".data g.data = true →
      substrIn "A16".data g.data = true →
      select_model_url mv (some g)
        = Except.ok (modelUrlA2 mv, "A2_model.onnx_b1_gpu0_fp16.engine") := by
  intro mv g h1 _
  simp [select_model_url, h1]

/-- C10 witness: a concrete GPU string containing both `"A2"` and `"A16"`
selects A2. -/
theorem gpu_selection_a2_priority_witness :
    substrIn "A2".data ("A2 A16" : String).data = true
    ∧ substrIn "A16".data ("A2 A16" : String).data = true
    ∧ select_model_url "v1" (some "A2 A16")
        = Except.ok (modelUrlA2 "v1", "A2_model.onnx_b1_gpu0_fp16.engine") :=
  ⟨by decide, by decide, gpu_selection_a2_priority "v1" "A2 A16" (by decide) (by decide)⟩

/-- C5: when the target label (resp. model) file already exists, the
download/verify step returns success immediately with the state unchanged:
no download, no checksum query, no file touched, nothing verified. -/
theorem skip_if_exists_no_network :
    (∀ (net : String → Option (List Nat)) (label_file model_version : String)
        (username password : Json) (st : St), st.isfile label_file = true →
        download_and_check_label_file net label_file model_version username password st
          = (st, Except.ok ()))
  ∧ (∀ (net : String → Option (List Nat)) (checksums : String → Option String)
        (model_file model_version : String) (gpu_model : Option String)
        (username password : Json) (st : St), st.isfile model_file = true →
        download_and_check_model_file net checksums model_file model_version gpu_model
          username password st = (st, Except.ok ())) := by
  constructor
  · intro net lf mv u p st h
    simp [download_and_check_label_file, h]
  · intro net cks mf mv g u p st h
    simp [download_and_check_model_file, h]

/-- C5 witness: both skip branches evaluated on a concrete state that
already holds the target files. -/
theorem skip_if_exists_no_network_witness :
    (({ fs := [("/output/deepstream_models/v1/labels.txt", [7]),
               ("/output/deepstream_models/v1/model.onnx_b1_gpu0_fp16.engine", [8])],
        events := [], dirs := [] } : St).isfile
        "/output/deepstream_models/v1/labels.txt" = true)
    ∧ download_and_check_label_file (fun _ => none)
        "/output/deepstream_models/v1/labels.txt" "v1" (Json.str "u") (Json.str "p")
        { fs := [("/output/deepstream_models/v1/labels.txt", [7]),
                 ("/output/deepstream_models/v1/model.onnx_b1_gpu0_fp16.engine", [8])],
          events := [], dirs := [] }
      = ({ fs := [("/output/deepstream_models/v1/labels.txt", [7]),
                  ("/output/deepstream_models/v1/model.onnx_b1_gpu0_fp16.engine", [8])],
           events := [], dirs := [] }, Except.ok ())
    ∧ download_and_check_model_file (fun _ => none) (fun _ => none)
        "/output/deepstream_models/v1/model.onnx_b1_gpu0_fp16.engine" "v1"
        (some "NVIDIA A16") (Json.str "u") (Json.str "p")
        { fs := [("/output/deepstream_models/v1/labels.txt", [7]),
                 ("/output/deepstream_models/v1/model.onnx_b1_gpu0_fp16.engine", [8])],
          events := [], dirs := [] }
      = ({ fs := [("/output/deepstream_models/v1/labels.txt", [7]),
                  ("/output/deepstream_models/v1/model.onnx_b1_gpu0_fp16.engine", [8])],
           events := [], dirs := [] }, Except.ok ()) :=
  ⟨rfl,
   skip_if_exists_no_network.1 _ _ _ _ _ _ rfl,
   skip_if_exists_no_network.2 _ _ _ _ _ _ _ _ rfl⟩

theorem run_curl_success (net : String → Option (List Nat)) (url : String)
    (u p : Json) (local_path : String) (st : St) (content : List Nat)
    (h : net url = some content) :
    run_curl_command net url u p local_path st
      = ({ st with
            events := st.events ++ [NetEvent.download url],
            fs := fsSet (fsRemove (fsSet st.fs (basename url) content) (basename url))
                    local_path content }, Except.ok ()) := by
  simp only [run_curl_command, h, fsRenameSt, lookup_fsSet_self]

/-- C3 counterexample: a fresh label-file run (file absent, download
succeeds) performs exactly one download and **no** checksum query, so the
label step is not a download-and-verify step. -/
theorem label_file_no_checksum_cex :
    (download_and_check_label_file (fun w => if w = labelUrl "v1" then some [108] else none)
        "/output/deepstream_models/v1/labels.txt" "v1" (Json.str "u") (Json.str "p")
        { fs := [], events := [], dirs := [] }).2 = Except.ok ()
    ∧ (download_and_check_label_file (fun w => if w = labelUrl "v1" then some [108] else none)
        "/output/deepstream_models/v1/labels.txt" "v1" (Json.str "u") (Json.str "p")
        { fs := [], events := [], dirs := [] }).1.events
      = [NetEvent.download (labelUrl "v1")]
    ∧ ((download_and_check_label_file (fun w => if w = labelUrl "v1" then some [108] else none)
        "/output/deepstream_models/v1/labels.txt" "v1" (Json.str "u") (Json.str "p")
        { fs := [], events := [], dirs := [] }).1.events.any (fun ev =>
          match ev with
          | NetEvent.checksum _ => true
          | NetEvent.download _ => false)) = false :=
  ⟨rfl, rfl, rfl⟩

/-- C3 (amended): when the label file is absent the orchestrator downloads
it — one `curl` download, the file staged at its destination — but performs
**no** checksum verification and no storage-API query for it (unlike the
model-file step). -/
theorem label_file_download_only :
    ∀ (net : String → Option (List Nat)) (label_file model_version : String)
      (username password : Json) (st : St) (content : List Nat),
      st.isfile label_file = false → net (labelUrl model_version) = some content →
      (download_and_check_label_file net label_file model_version username password st).2
          = Except.ok ()
      ∧ (download_and_check_label_file net label_file model_version username password st).1.events
          = st.events ++ [NetEvent.download (labelUrl model_version)]
      ∧ (download_and_check_label_file net label_file model_version
          username password st).1.fs.lookup label_file = some content := by
  intro net lf mv u p st c h1 h2
  have hs : download_and_check_label_file net lf mv u p st
      = run_curl_command net (labelUrl mv) u p lf st := by
    simp [download_and_check_label_file, h1]
  rw [hs, run_curl_success net (labelUrl mv) u p lf st c h2]
  exact ⟨rfl, rfl, lookup_fsSet_self _ _ _⟩

/-- C3 witness: the amended label-file behavior evaluated on a concrete
fresh state. -/
theorem label_file_download_only_witness :
    (download_and_check_label_file (fun w => if w = labelUrl "v2" then some [9] else none)
        "/output/deepstream_models/v2/labels.txt" "v2" (Json.str "u") (Json.str "p")
        { fs := [], events := [], dirs := [] }).2 = Except.ok ()
    ∧ (download_and_check_label_file (fun w => if w = labelUrl "v2" then some [9] else none)
        "/output/deepstream_models/v2/labels.txt" "v2" (Json.str "u") (Json.str "p")
        { fs := [], events := [], dirs := [] }).1.events
      = ({ fs := [], events := [], dirs := [] } : St).events
          ++ [NetEvent.download (labelUrl "v2")]
    ∧ (download_and_check_label_file (fun w => if w = labelUrl "v2" then some [9] else none)
        "/output/deepstream_models/v2/labels.txt" "v2" (Json.str "u") (Json.str "p")
        { fs := [], events := [], dirs := [] }).1.fs.lookup
        "/output/deepstream_models/v2/labels.txt" = some [9] :=
  label_file_download_only _ _ _ _ _ _ _ rfl rfl

/-- C8: credential resolution never returns a partial pair — whenever the
username or password is empty or absent, or a key along
`auths[<env>]` is missing, the lookup raises (the domain `ScriptError` or a
propagated key/type error); whenever it returns, both components are
non-falsy; and a JSON parse failure propagates as a `ValueError`. -/
theorem get_auth_credentials_never_partial :
    (∀ (j : Json) (jfrog_env : String), credentialDeficient j jfrog_env = true →
        exceptIsError (get_auth_credentials_core j jfrog_env) = true)
  ∧ (∀ (j : Json) (jfrog_env : String) (u p : Json),
        get_auth_credentials_core j jfrog_env = Except.ok (u, p) →
        u.isFalsy = false ∧ p.isFalsy = false)
  ∧ (∀ (parse : String → Option Json) (blob jfrog_env : String), parse blob = none →
        get_auth_credentials parse blob jfrog_env
          = Except.error (PyError.valueError "Expecting value")) := by
  refine ⟨?_, ?_, ?_⟩
  · intro j env h
    unfold credentialDeficient at h
    unfold get_auth_credentials_core
    cases hu : digAuth j env "username" with
    | error e => rfl
    | ok u =>
      cases hp : digAuth j env "password" with
      | error e => rfl
      | ok p =>
        rw [hu, hp] at h
        simp only [] at h
        simp [h, exceptIsError]
  · intro j env u p h
    unfold get_auth_credentials_core at h
    cases hu : digAuth j env "username" with
    | error e => rw [hu] at h; simp at h
    | ok u0 =>
      cases hp : digAuth j env "password" with
      | error e => rw [hu, hp] at h; simp at h
      | ok p0 =>
        rw [hu, hp] at h
        by_cases hf : (u0.isFalsy || p0.isFalsy) = true
        · simp only [hf, if_true] at h
          simp at h
        · have hf' : (u0.isFalsy || p0.isFalsy) = false := by
            simpa using hf
          simp only [hf', if_false] at h
          have huv : u0 = u ∧ p0 = p := by simpa using h
          obtain ⟨rfl, rfl⟩ := huv
          exact Bool.or_eq_false_iff.mp hf'
  · intro parse blob env h
    simp [get_auth_credentials, h]

/-- C8 witness: a blob lacking the password key is deficient, and the
lookup raises on it. -/
theorem get_auth_credentials_never_partial_witness :
    credentialDeficient (Json.obj [("auths", Json.obj [("prod",
        Json.obj [("username", Json.str "u")])])]) "prod" = true
    ∧ exceptIsError (get_auth_credentials_core (Json.obj [("auths", Json.obj [("prod",
        Json.obj [("username", Json.str "u")])])]) "prod") = true :=
  ⟨rfl, get_auth_credentials_never_partial.1 _ _ rfl⟩

/-- C6: checksum verification succeeds exactly on the true digest — for any
file content, verifying against its own MD5 succeeds, verifying against any
other string raises the integrity `ScriptError`; the zero-length file hashes
to the standard empty MD5, and the same holds for a content larger than one
4096-byte chunk. -/
theorem verify_md5_correct :
    (∀ (p : String) (c : List Nat), verify_md5_core p c (md5hex c) = Except.ok ())
  ∧ (∀ (p : String) (c : List Nat) (e : String), e ≠ md5hex c →
        verify_md5_core p c e
          = Except.error (PyError.scriptError ("MD5 check failed for " ++ p ++ ".")))
  ∧ md5hex [] = "d41d8cd98f00b204e9800998ecf8427e"
  ∧ verify_md5_core "multichunk" (List.replicate 4097 97)
      (md5hex (List.replicate 4097 97)) = Except.ok () :=
  ⟨verify_core_match, verify_core_mismatch, by decide, verify_core_match _ _⟩

/-- C6 witness: the mismatch half evaluated on the empty file and a wrong
digest. -/
theorem verify_md5_correct_witness :
    verify_md5_core "f" [] "ffffffffffffffffffffffffffffffff"
      = Except.error (PyError.scriptError ("MD5 check failed for " ++ "f" ++ ".")) :=
  verify_md5_correct.2.1 "f" [] "ffffffffffffffffffffffffffffffff" (by decide)

/-- C9: the digest comparison is exact case-sensitive string equality
against the lowercase hex digest: whenever the uppercased rendering of the
true digest differs from it (i.e. the digest contains a letter), verifying
against the uppercased digest raises the integrity error even though the
content matches; the empty file's digest is such a case. -/
theorem verify_md5_case_sensitive :
    (∀ (p : String) (c : List Nat), asciiUpper (md5hex c) ≠ md5hex c →
        verify_md5_core p c (asciiUpper (md5hex c))
          = Except.error (PyError.scriptError ("MD5 check failed for " ++ p ++ ".")))
  ∧ asciiUpper (md5hex []) ≠ md5hex [] := by
  constructor
  · intro p c h
    exact verify_core_mismatch p c _ h
  · decide

/-- C9 witness: uppercase digest rejection evaluated on the empty file. -/
theorem verify_md5_case_sensitive_witness :
    verify_md5_core "g" [] (asciiUpper (md5hex []))
      = Except.error (PyError.scriptError ("MD5 check failed for " ++ "g" ++ ".")) :=
  verify_md5_case_sensitive.1 "g" [] (by decide)

/-- C4: in the spec's failure scenario (valid config for `v3.2`, valid
credentials, GPU `NVIDIA A16-16Q`, label file already staged, model file
absent), whenever the storage API's reported checksum differs from the MD5
of the downloaded bytes, the process exits 1 logging the MD5-mismatch
`ScriptError`, the downloaded bytes remain on disk under the download name
`A16_model.onnx_b1_gpu0_fp16.engine`, and the canonical model path is never
created: the rename happens only after successful verification. -/
theorem get_jfrog_success (cks : String → Option String) (url : String) (u p : Json)
    (st : St) (e : String) (h : cks url = some e) :
    get_jfrog_checksum cks url u p st
      = ({ st with events := st.events ++ [NetEvent.checksum url] }, Except.ok e) := by
  simp only [get_jfrog_checksum, h]

theorem md5_mismatch_exit_and_no_rename :
    ∀ (content : List Nat) (e : String), e ≠ md5hex content →
      script_main parseScenario (netScenario content) (cksScenario e) envScenario stScenario
        = (1, stMismatch content,
            some (PyError.scriptError
              "MD5 check failed for A16_model.onnx_b1_gpu0_fp16.engine."))
      ∧ (stMismatch content).fs.lookup "A16_model.onnx_b1_gpu0_fp16.engine" = some content
      ∧ (stMismatch content).fs.lookup
          "/output/deepstream_models/v3.2/model.onnx_b1_gpu0_fp16.engine" = none := by
  intro content e h
  have hcore : mainCore parseScenario (netScenario content) (cksScenario e)
        envScenario stScenario
      = download_and_check_model_file (netScenario content) (cksScenario e)
          "/output/deepstream_models/v3.2/model.onnx_b1_gpu0_fp16.engine" "v3.2"
          (some "NVIDIA A16-16Q (UUID: GPU-x)") (Json.str "u") (Json.str "p")
          stScenario := rfl
  have hstep : download_and_check_model_file (netScenario content) (cksScenario e)
        "/output/deepstream_models/v3.2/model.onnx_b1_gpu0_fp16.engine" "v3.2"
        (some "NVIDIA A16-16Q (UUID: GPU-x)") (Json.str "u") (Json.str "p") stScenario
      = (stMismatch content, Except.error (PyError.scriptError
          "MD5 check failed for A16_model.onnx_b1_gpu0_fp16.engine.")) := by
    unfold download_and_check_model_file
    rw [show stScenario.isfile
        "/output/deepstream_models/v3.2/model.onnx_b1_gpu0_fp16.engine" = false from rfl]
    simp only [Bool.not_false, if_true]
    rw [show select_model_url "v3.2" (some "NVIDIA A16-16Q (UUID: GPU-x)")
        = Except.ok (modelUrlA16 "v3.2", "A16_model.onnx_b1_gpu0_fp16.engine") from rfl]
    simp only []
    rw [run_curl_success (netScenario content) (modelUrlA16 "v3.2") (Json.str "u")
        (Json.str "p") "A16_model.onnx_b1_gpu0_fp16.engine" stScenario content rfl]
    simp only []
    rw [get_jfrog_success (cksScenario e)
        (storageUrl "v3.2" (basename "A16_model.onnx_b1_gpu0_fp16.engine"))
        (Json.str "u") (Json.str "p") _ e rfl]
    simp only []
    split
    next err herr =>
      have hinj : Except.error (PyError.scriptError
            ("MD5 check failed for " ++ "A16_model.onnx_b1_gpu0_fp16.engine" ++ "."))
          = (Except.error err : Except PyError Unit) :=
        (verify_core_mismatch "A16_model.onnx_b1_gpu0_fp16.engine" content e h).symm.trans herr
      cases hinj
      rfl
    next val hok =>
      have hinj : Except.error (PyError.scriptError
            ("MD5 check failed for " ++ "A16_model.onnx_b1_gpu0_fp16.engine" ++ "."))
          = (Except.ok val : Except PyError Unit) :=
        (verify_core_mismatch "A16_model.onnx_b1_gpu0_fp16.engine" content e h).symm.trans hok
      cases hinj
  refine ⟨?_, rfl, rfl⟩
  unfold script_main
  rw [hcore, hstep]

/-- C4 witness: the mismatch theorem evaluated on an empty downloaded file
and a wrong all-zeros digest. -/
theorem md5_mismatch_exit_and_no_rename_witness :
    script_main parseScenario (netScenario []) (cksScenario "00000000000000000000000000000000")
        envScenario stScenario
      = (1, stMismatch [],
          some (PyError.scriptError
            "MD5 check failed for A16_model.onnx_b1_gpu0_fp16.engine."))
    ∧ (stMismatch []).fs.lookup "A16_model.onnx_b1_gpu0_fp16.engine" = some []
    ∧ (stMismatch []).fs.lookup
        "/output/deepstream_models/v3.2/model.onnx_b1_gpu0_fp16.engine" = none :=
  md5_mismatch_exit_and_no_rename [] "00000000000000000000000000000000" (by decide)
